import Mathlib

/-!
Verification of the AI Model Router of XCreator-Pro-Eliza.

The definitions below are a shallow embedding of the router service found in
src/unnamed/part_001 (the `ModelRouter` class, lines 140-549): the provider
registry built by `initializeModels`, the scoring selector `selectOptimalModel`,
the dispatch/fallback loop `generateContent`, the health monitor
`checkModelHealth`, the `RoundRobinLoadBalancer` class, the rate-limiting
middleware, and the `/generate` route handler.  Time stamps are naturals,
network and probe outcomes are passed in as explicit oracles.
-/

namespace ModelRouter

/-- A provider descriptor as built by `initializeModels`
(src/unnamed/part_001, lines 169-218).  Only the fields the routing logic
reads are embedded: the display name, `config.max_tokens` (absent for the
`hfHub` provider, whose config has only `max_new_tokens`, hence an `Option`),
the capability tags, and the mutable health fields `isHealthy` and
`lastHealthCheck`. -/
structure Provider where
  name : String
  maxTokens : Option Nat
  capabilities : List String
  isHealthy : Bool
  lastHealthCheck : Nat
deriving DecidableEq, Repr

/-- The provider registry: registration-ordered association list from registry
key to descriptor (JavaScript object insertion order, which `Object.entries`
preserves). -/
abbrev Registry := List (String × Provider)

/-- JavaScript `x > k` where `x` may be `undefined` (comparison with
`undefined` is false). -/
def optGt (o : Option Nat) (k : Nat) : Bool :=
  match o with
  | some v => decide (k < v)
  | none => false

/-- JavaScript `x <= k` where `x` may be `undefined`. -/
def optLe (o : Option Nat) (k : Nat) : Bool :=
  match o with
  | some v => decide (v ≤ k)
  | none => false

/-- First-match key lookup on the registry, i.e. `this.models[key]`. -/
def lookupKey : Registry → String → Option Provider
  | [], _ => none
  | e :: rest, k => if e.1 = k then some e.2 else lookupKey rest k

/-- The score `selectOptimalModel` computes for one healthy candidate
(src/unnamed/part_001, lines 411-427): +20 for a capability match, the three
name-specific affinity bonuses, the two prompt-length heuristics, and the
flat +5 base score for a healthy model. -/
def modelScore (key : String) (m : Provider) (type : String) (promptLen : Nat) : Nat :=
  (if m.capabilities.contains type then 20 else 0) +
  (if key = "chatterbox" ∧ type = "conversation" then 15 else 0) +
  (if key = "gemma3" ∧ type = "analysis" then 10 else 0) +
  (if key = "hfHub" ∧ type = "specialized" then 10 else 0) +
  (if promptLen > 1000 ∧ optGt m.maxTokens 2048 then 5 else 0) +
  (if promptLen < 500 ∧ optLe m.maxTokens 1024 then 3 else 0) +
  5

/-- The accumulator loop of `selectOptimalModel` (src/unnamed/part_001,
lines 404-433): `acc` is the pair `(bestModel, bestScore)` starting from
`(null, 0)`; unhealthy entries are skipped (`continue`), and the best entry
is replaced only on a strictly greater score. -/
def selectFold (t : String) (pl : Nat) :
    Registry → Option (String × Provider) × Nat → Option (String × Provider) × Nat
  | [], acc => acc
  | e :: rest, acc =>
    if e.2.isHealthy then
      if modelScore e.1 e.2 t pl > acc.2 then
        selectFold t pl rest (some e, modelScore e.1 e.2 t pl)
      else
        selectFold t pl rest acc
    else
      selectFold t pl rest acc

/-- `selectOptimalModel(type, prompt)` (src/unnamed/part_001, lines 404-436):
run the scoring loop over the registry and return the best entry, or the
registry's `gemma3` entry as the hard-coded default fallback
(`return bestModel || this.models.gemma3`). -/
def selectOptimalModel (models : Registry) (t : String) (pl : Nat) :
    Option (String × Provider) :=
  match (selectFold t pl models (none, 0)).1 with
  | some e => some e
  | none => (lookupKey models "gemma3").map (fun p => ("gemma3", p))

/-- The three-provider registry built by `initializeModels`
(src/unnamed/part_001, lines 169-218), with the health flags and the initial
`Date.now()` timestamp as parameters. -/
def initializeModels (hG hC hH : Bool) (now : Nat) : Registry :=
  [("gemma3",
    { name := "Google Gemma 3"
      maxTokens := some 2048
      capabilities := ["text-generation", "code-generation", "analysis"]
      isHealthy := hG
      lastHealthCheck := now }),
   ("chatterbox",
    { name := "Chatterbox AI"
      maxTokens := some 4096
      capabilities := ["conversation", "roleplay", "character-interaction"]
      isHealthy := hC
      lastHealthCheck := now }),
   ("hfHub",
    { name := "Hugging Face Hub"
      maxTokens := none
      capabilities := ["text-generation", "specialized-tasks"]
      isHealthy := hH
      lastHealthCheck := now })]

/-- `selectedModel.isHealthy = false` (src/unnamed/part_001, line 393): mark
every entry of the registry carrying the given key unhealthy, leaving all
other fields and entries unchanged. -/
def markUnhealthy (models : Registry) (key : String) : Registry :=
  models.map (fun e => if e.1 = key then (e.1, { e.2 with isHealthy := false }) else e)

/-- Modelled from the spec: `findFallbackModel` is invoked by
`generateContent` (src/unnamed/part_001, lines 368 and 394) but is defined
nowhere in the repository.  Sections 4.4 and 4.5 of the specification say the
router, faced with an unhealthy or just-failed provider, re-invokes the
Selector excluding that provider, returning nothing when no healthy candidate
remains.  We therefore model it as the scoring loop over the registry with
the excluded key filtered out (and no `gemma3` default, matching the
`if (fallbackModel)` null check at the call sites). -/
def findFallbackModel (models : Registry) (excludeKey : String) (t : String) (pl : Nat) :
    Option (String × Provider) :=
  (selectFold t pl (models.filter (fun e => decide (e.1 ≠ excludeKey))) (none, 0)).1

/-- The errors `generateContent` can throw (src/unnamed/part_001,
lines 362-372 and 389-400). -/
inductive GenError where
  | modelNotFound (model : String)
  | noHealthyModels
  | allModelsUnavailable
deriving DecidableEq, Repr

/-- The normalized success payload of `processResponse`: the serving
provider's registry key and display name (the generated text itself is
opaque). -/
structure GenOk where
  modelKey : String
  modelName : String
deriving DecidableEq, Repr

/-- Record one generation attempt in front of the attempt log of a
`generateContent` result. -/
def prependAttempt (a : String × Bool)
    (r : Except GenError GenOk × Registry × List (String × Bool)) :
    Except GenError GenOk × Registry × List (String × Bool) :=
  (r.1, r.2.1, a :: r.2.2)

/-- `generateContent(prompt, options)` (src/unnamed/part_001, lines 354-402).

`net i key` is the outcome of the `i`-th outbound generation call of the
request when it targets provider `key` (`true` = the HTTP call succeeds).
`fuel` bounds the recursion (the JavaScript recursion depth is bounded by the
registry size, since every failed attempt permanently marks a provider
unhealthy for the remainder of the request).  The result is the thrown error
or normalized response, the registry after the request's health-flag
mutations, and the ordered list of generation attempts as
`(provider key, attempt succeeded)` pairs. -/
def generateContent (net : Nat → String → Bool) :
    Nat → Registry → String → String → Nat → Nat →
    Except GenError GenOk × Registry × List (String × Bool)
  | 0, models, _, _, _, _ => (Except.error GenError.allModelsUnavailable, models, [])
  | fuel+1, models, modelOpt, t, pl, k =>
    match (if modelOpt = "auto" then selectOptimalModel models t pl
           else (lookupKey models modelOpt).map (fun p => (modelOpt, p))) with
    | none => (Except.error (GenError.modelNotFound modelOpt), models, [])
    | some (key, m) =>
      if m.isHealthy then
        if net k key then
          (Except.ok ⟨key, m.name⟩, models, [(key, true)])
        else
          match findFallbackModel (markUnhealthy models key) key t pl with
          | some (fk, _) =>
            prependAttempt (key, false)
              (generateContent net fuel (markUnhealthy models key) fk t pl (k+1))
          | none =>
            (Except.error GenError.allModelsUnavailable, markUnhealthy models key, [(key, false)])
      else
        match findFallbackModel models key t pl with
        | some (fk, _) => generateContent net fuel models fk t pl k
        | none => (Except.error GenError.noHealthyModels, models, [])

/-- Every entry registered under `key` is currently unhealthy. -/
def keyUnhealthy (models : Registry) (key : String) : Prop :=
  ∀ p, (key, p) ∈ models → p.isHealthy = false

/-- Outcome of one health probe of a provider: `none` for a network error or
timeout (the `axios` promise rejects), `some status` for a resolved response
with that HTTP status code. -/
def probeHealthy : Option Nat → Bool
  | some status => status == 200
  | none => false

/-- One tick of `checkModelHealth` (src/unnamed/part_001, lines 499-519):
for every registered provider, set `isHealthy` from the probe outcome
(`healthResponse.status === 200`, `false` on a thrown error) and record
`lastHealthCheck = Date.now()`. -/
def checkModelHealth (probe : String → Option Nat) (now : Nat) (models : Registry) : Registry :=
  models.map (fun e =>
    (e.1, { e.2 with isHealthy := probeHealthy (probe e.1), lastHealthCheck := now }))

/-- The recurring cycle started by `startHealthChecks`
(src/unnamed/part_001, lines 489-497): run the given sequence of ticks, each
with its own probe outcomes and timestamp, in order. -/
def runHealthTicks : List ((String → Option Nat) × Nat) → Registry → Registry
  | [], models => models
  | (p, now) :: rest, models => runHealthTicks rest (checkModelHealth p now models)

/-- Modelled from the spec: the per-provider health state of section 3 of the
specification, which in addition to the boolean flag and the timestamp keeps
a consecutive-failure counter; section 4.2 says a failed probe increments the
counter and a successful probe resets it.  The source's provider state
(`initializeModels`) has no such counter; this definition follows the spec's
words so the two updates can be compared. -/
structure SpecHealthState where
  healthy : Bool
  lastCheck : Nat
  consecutiveFailures : Nat
deriving DecidableEq, Repr

/-- Modelled from the spec: the health-tick update of section 4.2 on the
spec's per-provider health state. -/
def specHealthTick (success : Bool) (now : Nat) (s : SpecHealthState) : SpecHealthState :=
  if success then ⟨true, now, 0⟩ else ⟨false, now, s.consecutiveFailures + 1⟩

/-- The three-provider registry of the scenario in the specification's
testable-properties section: A and B healthy with the listed capability sets,
C unhealthy.  The scenario's `priority` fields have no counterpart in the
source's provider records, so they are not represented. -/
def specScenarioProviders : Registry :=
  [("A",
    { name := "A", maxTokens := some 2048, capabilities := ["conversation"],
      isHealthy := true, lastHealthCheck := 0 }),
   ("B",
    { name := "B", maxTokens := some 2048, capabilities := ["conversation", "analysis"],
      isHealthy := true, lastHealthCheck := 0 }),
   ("C",
    { name := "C", maxTokens := some 2048, capabilities := [],
      isHealthy := false, lastHealthCheck := 0 })]

/-- One caller identity's fixed-window rate-limit record: window start time
and request count within the window. -/
structure RateRecord where
  windowStart : Nat
  count : Nat
deriving DecidableEq, Repr

/-- The ceiling configured for the router's rate limiter
(src/unnamed/part_001, line 160: `points: 100`). -/
def rateLimiterPoints : Nat := 100

/-- The window configured for the router's rate limiter
(src/unnamed/part_001, line 161: `duration: 60` seconds). -/
def rateLimiterDuration : Nat := 60

/-- Modelled from the spec: the `consume` operation of the
`rate-limiter-flexible` library instance built in the `ModelRouter`
constructor (src/unnamed/part_001, lines 157-162) lives outside the
repository; section 4.3 of the specification describes it as a fixed-window
counter per caller identity: a fresh or expired window (start more than
`rateLimiterDuration` in the past) admits the call and resets the counter
to 1; within the window the call is admitted and counted while the count is
below `rateLimiterPoints`, and rejected once the ceiling is reached. -/
def consume (now : Nat) : Option RateRecord → Bool × RateRecord
  | none => (true, ⟨now, 1⟩)
  | some r =>
    if r.windowStart + rateLimiterDuration < now then
      (true, ⟨now, 1⟩)
    else if r.count < rateLimiterPoints then
      (true, ⟨r.windowStart, r.count + 1⟩)
    else
      (false, r)

/-- Outcome of the rate-limiting middleware for one request: pass the request
on with the updated record, or answer it with a structured HTTP response. -/
inductive MwOutcome where
  | next (rec : RateRecord)
  | rejected (status : Nat) (error : String)
deriving DecidableEq, Repr

/-- The rate-limiting middleware (src/unnamed/part_001, lines 233-243): a
rejected `consume` is caught and answered with status 429 and the
`Too Many Requests` error body; an admitted call proceeds to the next
handler. -/
def rateLimitMiddleware (now : Nat) (rec : Option RateRecord) : MwOutcome :=
  match consume now rec with
  | (true, r) => MwOutcome.next r
  | (false, _) => MwOutcome.rejected 429 "Too Many Requests"

/-- Process a sequence of same-identity request times through `consume`,
starting from the given record; returns the admission verdicts in order and
the final record. -/
def runRequests : List Nat → Option RateRecord → List Bool × Option RateRecord
  | [], st => ([], st)
  | t :: ts, st =>
    let (ok, r) := consume t st
    let (rest, st') := runRequests ts (some r)
    (ok :: rest, st')

/-- The body of a `POST /generate` request (src/unnamed/part_001,
line 284): `prompt` is `none` when the field is absent; `model` defaults to
`auto` and `type` to `general`. -/
structure GenerateBody where
  prompt : Option String
  model : Option String
  type : Option String
deriving DecidableEq, Repr

/-- The responses the `/generate` route can produce. -/
inductive HandlerResponse where
  | ok (modelKey modelName : String)
  | badRequest (error : String)
  | serverError (error : String)
deriving DecidableEq, Repr

/-- The `POST /generate` route handler (src/unnamed/part_001,
lines 282-300): a missing or empty prompt (JavaScript `!prompt`) is answered
with status 400 and `Prompt is required` before anything else runs; otherwise
the request is dispatched through `generateContent` and its error, if any, is
turned into a 500 response. -/
def handleGenerate (net : Nat → String → Bool) (fuel : Nat) (models : Registry)
    (body : GenerateBody) : HandlerResponse × Registry × List (String × Bool) :=
  match body.prompt with
  | none => (HandlerResponse.badRequest "Prompt is required", models, [])
  | some p =>
    if p = "" then
      (HandlerResponse.badRequest "Prompt is required", models, [])
    else
      match generateContent net fuel models (body.model.getD "auto")
          (body.type.getD "general") p.length 0 with
      | (Except.ok r, ms, att) => (HandlerResponse.ok r.modelKey r.modelName, ms, att)
      | (Except.error _, ms, att) => (HandlerResponse.serverError "Generation failed", ms, att)

end ModelRouter

namespace RoundRobin

/-- The `RoundRobinLoadBalancer` class (src/unnamed/part_001,
lines 530-541). -/
structure RoundRobinLoadBalancer where
  endpoints : List String
  currentIndex : Nat
deriving DecidableEq, Repr

/-- The constructor: `this.endpoints = endpoints; this.currentIndex = 0`. -/
def mkLoadBalancer (eps : List String) : RoundRobinLoadBalancer := ⟨eps, 0⟩

/-- `getNextEndpoint()` (src/unnamed/part_001, lines 536-540): return
`endpoints[currentIndex]` and advance the index modulo the list length. -/
def getNextEndpoint (lb : RoundRobinLoadBalancer) :
    Option String × RoundRobinLoadBalancer :=
  (lb.endpoints.get? lb.currentIndex,
   ⟨lb.endpoints, (lb.currentIndex + 1) % lb.endpoints.length⟩)

/-- The balancer state after `k` calls to `getNextEndpoint`. -/
def lbAfter (lb : RoundRobinLoadBalancer) : Nat → RoundRobinLoadBalancer
  | 0 => lb
  | k+1 => (getNextEndpoint (lbAfter lb k)).2

end RoundRobin

namespace ModelRouter

lemma modelScore_pos (key : String) (m : Provider) (t : String) (pl : Nat) :
    5 ≤ modelScore key m t pl :=
  Nat.le_add_left 5 _

lemma lookupKey_mem (l : Registry) (k : String) (v : Provider)
    (h : lookupKey l k = some v) : (k, v) ∈ l := by
  induction l with
  | nil => simp [lookupKey] at h
  | cons e rest ih =>
    rw [lookupKey] at h
    by_cases hk : e.1 = k
    · rw [if_pos hk] at h
      injection h with h
      rw [← hk, ← h]
      exact List.mem_cons_self _ _
    · rw [if_neg hk] at h
      exact List.mem_cons_of_mem _ (ih h)

lemma lookupKey_eq_of_nodup (l : Registry) (hn : (l.map Prod.fst).Nodup)
    (k : String) (v : Provider) (h : (k, v) ∈ l) : lookupKey l k = some v := by
  induction l with
  | nil => simp at h
  | cons e rest ih =>
    rw [List.map_cons, List.nodup_cons] at hn
    rcases List.mem_cons.mp h with h1 | h1
    · rw [lookupKey, if_pos (congrArg Prod.fst h1.symm)]
      rw [← h1]
    · have hk : e.1 ≠ k := by
        intro he
        exact hn.1 (he ▸ List.mem_map.mpr ⟨(k, v), h1, rfl⟩)
      rw [lookupKey, if_neg hk]
      exact ih hn.2 h1

/-- Soundness and optimality of the scoring loop: starting from an arbitrary
accumulator, either no entry beats the accumulator (and every healthy entry
scores at most the accumulated score), or the loop returns the first entry
attaining the maximum score among healthy entries: strictly earlier healthy
entries score strictly less, later ones at most as much. -/
lemma selectFold_spec (t : String) (pl : Nat) :
    ∀ (l : Registry) (b : Option (String × Provider)) (s : Nat),
      (selectFold t pl l (b, s) = (b, s) ∧
        ∀ e ∈ l, e.2.isHealthy = true → modelScore e.1 e.2 t pl ≤ s) ∨
      (∃ l1 best l2, l = l1 ++ best :: l2 ∧ best.2.isHealthy = true ∧
        selectFold t pl l (b, s) = (some best, modelScore best.1 best.2 t pl) ∧
        s < modelScore best.1 best.2 t pl ∧
        (∀ e ∈ l1, e.2.isHealthy = true →
          modelScore e.1 e.2 t pl < modelScore best.1 best.2 t pl) ∧
        (∀ e ∈ l2, e.2.isHealthy = true →
          modelScore e.1 e.2 t pl ≤ modelScore best.1 best.2 t pl)) := by
  intro l
  induction l with
  | nil =>
    intro b s
    left
    exact ⟨rfl, by simp⟩
  | cons e rest ih =>
    intro b s
    cases he : e.2.isHealthy with
    | false =>
      have hstep : selectFold t pl (e :: rest) (b, s) = selectFold t pl rest (b, s) := by
        simp [selectFold, he]
      rcases ih b s with ⟨h1, h2⟩ | ⟨l1, best, l2, hsplit, hb, heq, hlt, hl1, hl2⟩
      · left
        refine ⟨hstep.trans h1, ?_⟩
        intro x hx hxh
        rcases List.mem_cons.mp hx with rfl | hx'
        · rw [he] at hxh; exact Bool.noConfusion hxh
        · exact h2 x hx' hxh
      · right
        refine ⟨e :: l1, best, l2, by rw [hsplit]; rfl, hb, hstep.trans heq, hlt, ?_, hl2⟩
        intro x hx hxh
        rcases List.mem_cons.mp hx with rfl | hx'
        · rw [he] at hxh; exact Bool.noConfusion hxh
        · exact hl1 x hx' hxh
    | true =>
      rcases Nat.lt_or_ge s (modelScore e.1 e.2 t pl) with hs | hs
      · have hstep : selectFold t pl (e :: rest) (b, s)
            = selectFold t pl rest (some e, modelScore e.1 e.2 t pl) := by
          simp [selectFold, he, hs]
        rcases ih (some e) (modelScore e.1 e.2 t pl) with
          ⟨h1, h2⟩ | ⟨l1, best, l2, hsplit, hb, heq, hlt, hl1, hl2⟩
        · right
          exact ⟨[], e, rest, rfl, he, hstep.trans h1, hs, by simp, h2⟩
        · right
          refine ⟨e :: l1, best, l2, by rw [hsplit]; rfl, hb, hstep.trans heq,
            lt_trans hs hlt, ?_, hl2⟩
          intro x hx hxh
          rcases List.mem_cons.mp hx with rfl | hx'
          · exact hlt
          · exact hl1 x hx' hxh
      · have hstep : selectFold t pl (e :: rest) (b, s) = selectFold t pl rest (b, s) := by
          simp [selectFold, he, Nat.not_lt.mpr hs]
        rcases ih b s with ⟨h1, h2⟩ | ⟨l1, best, l2, hsplit, hb, heq, hlt, hl1, hl2⟩
        · left
          refine ⟨hstep.trans h1, ?_⟩
          intro x hx hxh
          rcases List.mem_cons.mp hx with rfl | hx'
          · exact hs
          · exact h2 x hx' hxh
        · right
          refine ⟨e :: l1, best, l2, by rw [hsplit]; rfl, hb, hstep.trans heq, hlt, ?_, hl2⟩
          intro x hx hxh
          rcases List.mem_cons.mp hx with rfl | hx'
          · exact Nat.lt_of_le_of_lt hs hlt
          · exact hl1 x hx' hxh

lemma selectFold_fst_eq_or_mem (t : String) (pl : Nat) :
    ∀ (l : Registry) (b : Option (String × Provider)) (s : Nat),
      (selectFold t pl l (b, s)).1 = b ∨
      ∃ e ∈ l, (selectFold t pl l (b, s)).1 = some e := by
  intro l
  induction l with
  | nil => intro b s; left; rfl
  | cons e rest ih =>
    intro b s
    cases he : e.2.isHealthy with
    | false =>
      have hstep : selectFold t pl (e :: rest) (b, s) = selectFold t pl rest (b, s) := by
        simp [selectFold, he]
      rw [hstep]
      rcases ih b s with h | ⟨x, hx, hfx⟩
      · left; exact h
      · right; exact ⟨x, List.mem_cons_of_mem _ hx, hfx⟩
    | true =>
      rcases Nat.lt_or_ge s (modelScore e.1 e.2 t pl) with hs | hs
      · have hstep : selectFold t pl (e :: rest) (b, s)
            = selectFold t pl rest (some e, modelScore e.1 e.2 t pl) := by
          simp [selectFold, he, hs]
        rw [hstep]
        rcases ih (some e) (modelScore e.1 e.2 t pl) with h | ⟨x, hx, hfx⟩
        · right; exact ⟨e, List.mem_cons_self _ _, h⟩
        · right; exact ⟨x, List.mem_cons_of_mem _ hx, hfx⟩
      · have hstep : selectFold t pl (e :: rest) (b, s) = selectFold t pl rest (b, s) := by
          simp [selectFold, he, Nat.not_lt.mpr hs]
        rw [hstep]
        rcases ih b s with h | ⟨x, hx, hfx⟩
        · left; exact h
        · right; exact ⟨x, List.mem_cons_of_mem _ hx, hfx⟩

lemma selectOptimalModel_mem (models : Registry) (t : String) (pl : Nat)
    (e : String × Provider) (h : selectOptimalModel models t pl = some e) :
    e ∈ models := by
  rw [selectOptimalModel] at h
  cases hf : (selectFold t pl models (none, 0)).1 with
  | none =>
    rw [hf] at h
    simp only [Option.map_eq_some'] at h
    obtain ⟨p, hp, hpe⟩ := h
    rw [← hpe]
    exact lookupKey_mem _ _ _ hp
  | some x =>
    rw [hf] at h
    simp only [Option.some.injEq] at h
    rcases selectFold_fst_eq_or_mem t pl models none 0 with h0 | ⟨y, hy, hfy⟩
    · rw [hf] at h0; exact Option.noConfusion h0
    · rw [hf] at hfy
      simp only [Option.some.injEq] at hfy
      rw [← h, hfy]
      exact hy

end ModelRouter

namespace ModelRouter

/-- C1 counterexample: with every registered provider unhealthy, the unpinned
selector still returns a provider, namely the hard-coded `gemma3` default,
whose healthy flag is false. -/
theorem selector_returns_unhealthy_default_cex :
    (selectOptimalModel (initializeModels false false false 0) "conversation" 5).map
      (fun e => (e.1, e.2.isHealthy)) = some ("gemma3", false) := by
  decide

/-- C1 (amended): for an unpinned request, whenever at least one registered
provider is healthy, `selectOptimalModel` never returns a provider whose
healthy flag is false; the guarantee fails only in the all-unhealthy case,
where the `gemma3` default is returned. -/
theorem selector_healthy_of_exists_healthy (models : Registry) (t : String) (pl : Nat)
    (best : String × Provider)
    (h : ∃ e ∈ models, e.2.isHealthy = true)
    (hsel : selectOptimalModel models t pl = some best) :
    best.2.isHealthy = true := by
  rcases selectFold_spec t pl models none 0 with
    ⟨h1, h2⟩ | ⟨l1, b, l2, hsplit, hb, heq, hlt, hl1, hl2⟩
  · exfalso
    obtain ⟨e, he, heh⟩ := h
    have hle := h2 e he heh
    have hpos := modelScore_pos e.1 e.2 t pl
    omega
  · rw [selectOptimalModel, heq] at hsel
    simp only [Option.some.injEq] at hsel
    rw [← hsel]
    exact hb

/-- C1 witness: in the all-healthy registry the selector's choice for a
conversation request is the chatterbox provider, which is healthy. -/
theorem selector_healthy_of_exists_healthy_witness :
    (∃ e ∈ initializeModels true true true 0, e.2.isHealthy = true) ∧
    selectOptimalModel (initializeModels true true true 0) "conversation" 7 =
      some ("chatterbox",
        { name := "Chatterbox AI", maxTokens := some 4096,
          capabilities := ["conversation", "roleplay", "character-interaction"],
          isHealthy := true, lastHealthCheck := 0 }) ∧
    ("chatterbox",
      ({ name := "Chatterbox AI", maxTokens := some 4096,
         capabilities := ["conversation", "roleplay", "character-interaction"],
         isHealthy := true, lastHealthCheck := 0 } : Provider)).2.isHealthy = true :=
  ⟨by decide, by decide,
    selector_healthy_of_exists_healthy (initializeModels true true true 0) "conversation" 7
      ("chatterbox",
        { name := "Chatterbox AI", maxTokens := some 4096,
          capabilities := ["conversation", "roleplay", "character-interaction"],
          isHealthy := true, lastHealthCheck := 0 })
      (by decide) (by decide)⟩

/-- C2 counterexample: in the specification's three-provider scenario, A and B
tie on score (the source has no priority field) and the selector returns the
first-registered A, not B as the claim demands. -/
theorem selector_tie_returns_A_not_B_cex :
    (selectOptimalModel specScenarioProviders "conversation" 10).map Prod.fst = some "A" ∧
    some "A" ≠ some "B" := by
  decide

/-- C2 (amended): when at least one healthy candidate exists, the selector
returns the highest-scoring healthy candidate, and on ties the earliest
registered one wins: the returned entry splits the registry so that every
strictly earlier healthy entry scores strictly less and every healthy entry
anywhere scores at most as much.  (The source has no priority field; the
only tie-break is registration order.) -/
theorem selector_argmax_registration_order (models : Registry) (t : String) (pl : Nat)
    (h : ∃ e ∈ models, e.2.isHealthy = true) :
    ∃ l1 best l2, models = l1 ++ best :: l2 ∧
      selectOptimalModel models t pl = some best ∧
      best.2.isHealthy = true ∧
      (∀ e ∈ models, e.2.isHealthy = true →
        modelScore e.1 e.2 t pl ≤ modelScore best.1 best.2 t pl) ∧
      (∀ e ∈ l1, e.2.isHealthy = true →
        modelScore e.1 e.2 t pl < modelScore best.1 best.2 t pl) := by
  rcases selectFold_spec t pl models none 0 with
    ⟨h1, h2⟩ | ⟨l1, best, l2, hsplit, hb, heq, hlt, hl1, hl2⟩
  · exfalso
    obtain ⟨e, he, heh⟩ := h
    have hle := h2 e he heh
    have hpos := modelScore_pos e.1 e.2 t pl
    omega
  · refine ⟨l1, best, l2, hsplit, ?_, hb, ?_, hl1⟩
    · rw [selectOptimalModel, heq]
    · intro e he heh
      rw [hsplit] at he
      rcases List.mem_append.mp he with he1 | he2
      · exact Nat.le_of_lt (hl1 e he1 heh)
      · rcases List.mem_cons.mp he2 with rfl | he3
        · exact Nat.le_refl _
        · exact hl2 e he3 heh

/-- C2 witness: the characterization applied to the specification's scenario
registry. -/
theorem selector_argmax_registration_order_witness :
    (∃ e ∈ specScenarioProviders, e.2.isHealthy = true) ∧
    (∃ l1 best l2, specScenarioProviders = l1 ++ best :: l2 ∧
      selectOptimalModel specScenarioProviders "conversation" 10 = some best ∧
      best.2.isHealthy = true ∧
      (∀ e ∈ specScenarioProviders, e.2.isHealthy = true →
        modelScore e.1 e.2 "conversation" 10 ≤ modelScore best.1 best.2 "conversation" 10) ∧
      (∀ e ∈ l1, e.2.isHealthy = true →
        modelScore e.1 e.2 "conversation" 10 < modelScore best.1 best.2 "conversation" 10)) :=
  ⟨by decide, selector_argmax_registration_order specScenarioProviders "conversation" 10 (by decide)⟩

/-- C4 counterexample: with every registered provider unhealthy, `select()`
does not fail at all: it returns the (unhealthy) default `gemma3` provider,
contradicting the claimed `NoHealthyProviderError`. -/
theorem select_all_unhealthy_no_error_cex :
    (selectOptimalModel (initializeModels false false false 0) "general" 5).isSome = true ∧
    (selectOptimalModel (initializeModels false false false 0) "general" 5).map
      (fun e => e.2.isHealthy) = some false := by
  decide

/-- C4 (amended): if every registered provider is unhealthy, the selector
returns the unhealthy `gemma3` default instead of raising, and
`generateContent` on an unpinned request fails with the
`No healthy models available` error, leaves the registry untouched, and makes
no generation attempt (hence no network call). -/
theorem dispatch_all_unhealthy_error (net : Nat → String → Bool)
    (fuel now pl k : Nat) (t : String) :
    generateContent net (fuel+1) (initializeModels false false false now) "auto" t pl k =
      (Except.error GenError.noHealthyModels, initializeModels false false false now, []) := by
  rfl

end ModelRouter

namespace ModelRouter

lemma keyUnhealthy_mark_self (models : Registry) (key : String) :
    keyUnhealthy (markUnhealthy models key) key := by
  intro p hp
  rcases List.mem_map.mp hp with ⟨e, he, hfe⟩
  by_cases hk : e.1 = key
  · rw [if_pos hk] at hfe
    have h2 : ({ e.2 with isHealthy := false } : Provider) = p := congrArg Prod.snd hfe
    rw [← h2]
  · rw [if_neg hk] at hfe
    exact absurd (congrArg Prod.fst hfe) hk

lemma keyUnhealthy_mark_mono (models : Registry) (key key' : String)
    (h : keyUnhealthy models key) : keyUnhealthy (markUnhealthy models key') key := by
  intro p hp
  rcases List.mem_map.mp hp with ⟨e, he, hfe⟩
  by_cases hk : e.1 = key'
  · rw [if_pos hk] at hfe
    have h2 : ({ e.2 with isHealthy := false } : Provider) = p := congrArg Prod.snd hfe
    rw [← h2]
  · rw [if_neg hk] at hfe
    exact h p (hfe ▸ he)

/-- The entry `generateContent` resolves from the `model` option (the
selector's choice for `auto`, a registry lookup otherwise) is a registry
entry. -/
lemma selected_mem (models : Registry) (mo t : String) (pl : Nat)
    (key : String) (m : Provider)
    (h : (if mo = "auto" then selectOptimalModel models t pl
          else (lookupKey models mo).map (fun p => (mo, p))) = some (key, m)) :
    (key, m) ∈ models := by
  by_cases hmo : mo = "auto"
  · rw [if_pos hmo] at h
    exact selectOptimalModel_mem _ _ _ _ h
  · rw [if_neg hmo] at h
    simp only [Option.map_eq_some'] at h
    obtain ⟨p, hp, hpe⟩ := h
    rw [← hpe]
    exact lookupKey_mem _ _ _ hp

/-- `generateContent` never sets a health flag to true: a key with only
unhealthy entries still has only unhealthy entries afterwards. -/
lemma generateContent_keyUnhealthy_mono (net : Nat → String → Bool) :
    ∀ (fuel : Nat) (models : Registry) (mo t : String) (pl k : Nat) (key : String),
      keyUnhealthy models key →
      keyUnhealthy (generateContent net fuel models mo t pl k).2.1 key := by
  intro fuel
  induction fuel with
  | zero => intro models mo t pl k key h; exact h
  | succ fuel ih =>
    intro models mo t pl k key h
    cases hsel : (if mo = "auto" then selectOptimalModel models t pl
                  else (lookupKey models mo).map (fun p => (mo, p))) with
    | none => simpa only [generateContent, hsel] using h
    | some km =>
      obtain ⟨key', m⟩ := km
      cases hh : m.isHealthy with
      | true =>
        cases hnet : net k key' with
        | true => simpa only [generateContent, hsel, hh, hnet, if_true] using h
        | false =>
          cases hfb : findFallbackModel (markUnhealthy models key') key' t pl with
          | some fkp =>
            obtain ⟨fk, fp⟩ := fkp
            simp only [generateContent, hsel, hh, hnet, hfb, if_true, Bool.false_eq_true,
              if_false, prependAttempt]
            exact ih _ _ _ _ _ _ (keyUnhealthy_mark_mono _ _ _ h)
          | none =>
            simp only [generateContent, hsel, hh, hnet, hfb, if_true, Bool.false_eq_true,
              if_false]
            exact keyUnhealthy_mark_mono _ _ _ h
      | false =>
        cases hfb : findFallbackModel models key' t pl with
        | some fkp =>
          obtain ⟨fk, fp⟩ := fkp
          simp only [generateContent, hsel, hh, hfb, Bool.false_eq_true, if_false]
          exact ih _ _ _ _ _ _ h
        | none =>
          simpa only [generateContent, hsel, hh, hfb, Bool.false_eq_true, if_false] using h

/-- A provider all of whose registry entries are unhealthy on entry to
`generateContent` is never attempted during the whole fallback loop. -/
lemma generateContent_not_attempted (net : Nat → String → Bool) :
    ∀ (fuel : Nat) (models : Registry) (mo t : String) (pl k : Nat) (key : String),
      keyUnhealthy models key →
      key ∉ (generateContent net fuel models mo t pl k).2.2.map Prod.fst := by
  intro fuel
  induction fuel with
  | zero => intro models mo t pl k key h; simp [generateContent]
  | succ fuel ih =>
    intro models mo t pl k key h
    cases hsel : (if mo = "auto" then selectOptimalModel models t pl
                  else (lookupKey models mo).map (fun p => (mo, p))) with
    | none => simp [generateContent, hsel]
    | some km =>
      obtain ⟨key', m⟩ := km
      cases hh : m.isHealthy with
      | true =>
        have hne : key ≠ key' := by
          intro hkk
          have hmem := selected_mem models mo t pl key' m hsel
          rw [← hkk] at hmem
          rw [h m hmem] at hh
          exact Bool.noConfusion hh
        cases hnet : net k key' with
        | true =>
          simp only [generateContent, hsel, hh, hnet, if_true, List.map_cons, List.map_nil,
            List.mem_singleton]
          exact hne
        | false =>
          cases hfb : findFallbackModel (markUnhealthy models key') key' t pl with
          | some fkp =>
            obtain ⟨fk, fp⟩ := fkp
            simp only [generateContent, hsel, hh, hnet, hfb, if_true, Bool.false_eq_true,
              if_false, prependAttempt, List.map_cons, List.mem_cons, not_or]
            exact ⟨hne, ih _ _ _ _ _ _ (keyUnhealthy_mark_mono _ _ _ h)⟩
          | none =>
            simp only [generateContent, hsel, hh, hnet, hfb, if_true, Bool.false_eq_true,
              if_false, List.map_cons, List.map_nil, List.mem_singleton]
            exact hne
      | false =>
        cases hfb : findFallbackModel models key' t pl with
        | some fkp =>
          obtain ⟨fk, fp⟩ := fkp
          simp only [generateContent, hsel, hh, hfb, Bool.false_eq_true, if_false]
          exact ih _ _ _ _ _ _ h
        | none =>
          simp [generateContent, hsel, hh, hfb]

/-- C3: within one `generateContent` call, no provider is ever attempted
twice (the attempt log has pairwise distinct provider keys), and every
provider whose attempt failed is unhealthy in the registry state the call
leaves behind: a failed provider is marked down immediately and stays
excluded for the rest of the request. -/
theorem dispatch_no_double_attempt (net : Nat → String → Bool)
    (fuel : Nat) (models : Registry) (mo t : String) (pl k : Nat) :
    ((generateContent net fuel models mo t pl k).2.2.map Prod.fst).Nodup ∧
    ∀ a ∈ (generateContent net fuel models mo t pl k).2.2, a.2 = false →
      keyUnhealthy (generateContent net fuel models mo t pl k).2.1 a.1 := by
  induction fuel generalizing models mo k with
  | zero =>
    constructor
    · simp [generateContent]
    · intro a ha
      simp [generateContent] at ha
  | succ fuel ih =>
    cases hsel : (if mo = "auto" then selectOptimalModel models t pl
                  else (lookupKey models mo).map (fun p => (mo, p))) with
    | none =>
      simp only [generateContent, hsel]
      constructor
      · simp
      · intro a ha
        simp at ha
    | some km =>
      obtain ⟨key', m⟩ := km
      cases hh : m.isHealthy with
      | true =>
        cases hnet : net k key' with
        | true =>
          simp only [generateContent, hsel, hh, hnet, if_true]
          constructor
          · simp
          · intro a ha hfa
            simp only [List.mem_singleton] at ha
            rw [ha] at hfa
            exact Bool.noConfusion hfa
        | false =>
          cases hfb : findFallbackModel (markUnhealthy models key') key' t pl with
          | some fkp =>
            obtain ⟨fk, fp⟩ := fkp
            simp only [generateContent, hsel, hh, hnet, hfb, if_true, Bool.false_eq_true,
              if_false, prependAttempt, List.map_cons]
            constructor
            · rw [List.nodup_cons]
              exact ⟨generateContent_not_attempted net fuel _ fk t pl (k+1) key'
                  (keyUnhealthy_mark_self models key'),
                (ih (markUnhealthy models key') fk (k+1)).1⟩
            · intro a ha hfa
              rcases List.mem_cons.mp ha with rfl | ha'
              · exact generateContent_keyUnhealthy_mono net fuel _ fk t pl (k+1) key'
                  (keyUnhealthy_mark_self models key')
              · exact (ih (markUnhealthy models key') fk (k+1)).2 a ha' hfa
          | none =>
            simp only [generateContent, hsel, hh, hnet, hfb, if_true, Bool.false_eq_true,
              if_false, List.map_cons, List.map_nil]
            constructor
            · simp
            · intro a ha hfa
              simp only [List.mem_singleton] at ha
              rw [ha]
              exact keyUnhealthy_mark_self models key'
      | false =>
        cases hfb : findFallbackModel models key' t pl with
        | some fkp =>
          obtain ⟨fk, fp⟩ := fkp
          simp only [generateContent, hsel, hh, hfb, Bool.false_eq_true, if_false]
          exact ih models fk k
        | none =>
          simp only [generateContent, hsel, hh, hfb, Bool.false_eq_true, if_false]
          constructor
          · simp
          · intro a ha
            simp at ha

/-- C3 witness: with every generation call failing, the all-healthy registry
is walked through chatterbox, gemma3 and hfHub without ever attempting the
same provider twice. -/
theorem dispatch_no_double_attempt_witness :
    ((generateContent (fun _ _ => false) 5 (initializeModels true true true 0)
        "auto" "conversation" 10 0).2.2.map Prod.fst).Nodup :=
  (dispatch_no_double_attempt (fun _ _ => false) 5 (initializeModels true true true 0)
    "auto" "conversation" 10 0).1

end ModelRouter

namespace ModelRouter

/-- One step of the scoring loop. -/
lemma selectFold_cons (t : String) (pl : Nat) (e : String × Provider) (l : Registry)
    (acc : Option (String × Provider) × Nat) :
    selectFold t pl (e :: l) acc =
      selectFold t pl l
        (if e.2.isHealthy then
          (if modelScore e.1 e.2 t pl > acc.2 then (some e, modelScore e.1 e.2 t pl) else acc)
         else acc) := by
  cases he : e.2.isHealthy with
  | true =>
    rcases Nat.lt_or_ge acc.2 (modelScore e.1 e.2 t pl) with hs | hs
    · simp [selectFold, he, hs]
    · simp [selectFold, he, Nat.not_lt.mpr hs]
  | false => simp [selectFold, he]

/-- Filtering out entries that are unhealthy anyway does not change the
scoring loop's result. -/
lemma selectFold_filter_eq (t : String) (pl : Nat) (p : String × Provider → Bool) :
    ∀ (l : Registry) (acc : Option (String × Provider) × Nat),
      (∀ e ∈ l, p e = false → e.2.isHealthy = false) →
      selectFold t pl (l.filter p) acc = selectFold t pl l acc := by
  intro l
  induction l with
  | nil => intro acc _; rfl
  | cons e rest ih =>
    intro acc h
    cases hp : p e with
    | true =>
      rw [List.filter_cons_of_pos hp, selectFold_cons, selectFold_cons]
      exact ih _ (fun x hx hpx => h x (List.mem_cons_of_mem _ hx) hpx)
    | false =>
      rw [List.filter_cons_of_neg (by simp [hp]), selectFold_cons,
        h e (List.mem_cons_self _ _) hp]
      simp only [Bool.false_eq_true, if_false]
      exact ih _ (fun x hx hpx => h x (List.mem_cons_of_mem _ hx) hpx)

/-- C5: a request explicitly pinned to a registered but unhealthy provider
(the only mode the source has; there is no strict-pin configuration) falls
back to automatic selection: the fallback provider the router picks is
exactly the scoring algorithm's unpinned choice, it is healthy, and with the
network up the request is served by it in a single successful attempt
instead of failing. -/
theorem pinned_unhealthy_auto_fallback (net : Nat → String → Bool)
    (fuel : Nat) (models : Registry) (pin t : String) (pl k : Nat) (m : Provider)
    (hnodup : (models.map Prod.fst).Nodup)
    (hauto : ∀ e ∈ models, e.1 ≠ "auto")
    (hm : lookupKey models pin = some m)
    (hunh : m.isHealthy = false)
    (halt : ∃ e ∈ models, e.1 ≠ pin ∧ e.2.isHealthy = true)
    (hnet : ∀ i s, net i s = true) :
    ∃ best, best ∈ models ∧ best.2.isHealthy = true ∧
      findFallbackModel models pin t pl = some best ∧
      selectOptimalModel models t pl = some best ∧
      generateContent net (fuel+2) models pin t pl k =
        (Except.ok ⟨best.1, best.2.name⟩, models, [(best.1, true)]) := by
  have hpin_ne : pin ≠ "auto" := by
    intro hpa
    exact hauto _ (lookupKey_mem models pin m hm) hpa
  have hremoved : ∀ e ∈ models, (decide (e.1 ≠ pin)) = false → e.2.isHealthy = false := by
    intro e he hpe
    have hepin : e.1 = pin := by simpa using hpe
    have hlk : lookupKey models pin = some e.2 := by
      refine lookupKey_eq_of_nodup models hnodup pin e.2 ?_
      rw [← hepin]
      exact he
    rw [hm] at hlk
    injection hlk with hlk
    rw [← hlk]
    exact hunh
  have hfiltmem : ∃ e ∈ models.filter (fun e => decide (e.1 ≠ pin)), e.2.isHealthy = true := by
    obtain ⟨e, he, hne, heh⟩ := halt
    exact ⟨e, List.mem_filter.mpr ⟨he, by simpa using hne⟩, heh⟩
  rcases selectFold_spec t pl (models.filter (fun e => decide (e.1 ≠ pin))) none 0 with
    ⟨h1, h2⟩ | ⟨l1, best, l2, hsplit, hb, heq, hlt, hl1, hl2⟩
  · exfalso
    obtain ⟨e, he, heh⟩ := hfiltmem
    have hle := h2 e he heh
    have hpos := modelScore_pos e.1 e.2 t pl
    omega
  · obtain ⟨bk, bp⟩ := best
    have hbfilt : (bk, bp) ∈ models.filter (fun e => decide (e.1 ≠ pin)) := by
      rw [hsplit]
      exact List.mem_append.mpr (Or.inr (List.mem_cons_self _ _))
    have hbm : (bk, bp) ∈ models := List.mem_of_mem_filter hbfilt
    have hfb : findFallbackModel models pin t pl = some (bk, bp) := by
      rw [findFallbackModel, heq]
    have hfold : selectFold t pl models (none, 0) = (some (bk, bp), modelScore bk bp t pl) := by
      rw [← selectFold_filter_eq t pl (fun e => decide (e.1 ≠ pin)) models (none, 0) hremoved]
      exact heq
    have hsel : selectOptimalModel models t pl = some (bk, bp) := by
      rw [selectOptimalModel, hfold]
    have hbk_ne : bk ≠ "auto" := hauto _ hbm
    have hlkb : lookupKey models bk = some bp :=
      lookupKey_eq_of_nodup models hnodup bk bp hbm
    refine ⟨(bk, bp), hbm, hb, hfb, hsel, ?_⟩
    have step1 : generateContent net (fuel+2) models pin t pl k =
        generateContent net (fuel+1) models bk t pl k := by
      simp only [generateContent, if_neg hpin_ne, hm, Option.map_some', hunh,
        Bool.false_eq_true, if_false, hfb]
    rw [step1]
    simp only [generateContent, if_neg hbk_ne, hlkb, Option.map_some', hb, if_true,
      hnet k bk]
    rw [if_pos hb]

/-- C5 witness: with chatterbox registered but unhealthy and the network up,
a request pinned to chatterbox is served by the automatic choice gemma3. -/
theorem pinned_unhealthy_auto_fallback_witness :
    ∃ best, best ∈ initializeModels true false true 0 ∧ best.2.isHealthy = true ∧
      findFallbackModel (initializeModels true false true 0) "chatterbox" "conversation" 10 =
        some best ∧
      selectOptimalModel (initializeModels true false true 0) "conversation" 10 = some best ∧
      generateContent (fun _ _ => true) 2 (initializeModels true false true 0)
          "chatterbox" "conversation" 10 0 =
        (Except.ok ⟨best.1, best.2.name⟩, initializeModels true false true 0,
          [(best.1, true)]) :=
  pinned_unhealthy_auto_fallback (fun _ _ => true) 0 (initializeModels true false true 0)
    "chatterbox" "conversation" 10 0
    { name := "Chatterbox AI", maxTokens := some 4096,
      capabilities := ["conversation", "roleplay", "character-interaction"],
      isHealthy := false, lastHealthCheck := 0 }
    (by decide) (by decide) (by decide) (by decide) (by decide) (fun _ _ => rfl)

end ModelRouter

namespace ModelRouter

/-- The health flag and timestamp a tick writes for each provider. -/
lemma checkModelHealth_isHealthy (probe : String → Option Nat) (now : Nat) (models : Registry)
    (key : String) (m' : Provider) (h : (key, m') ∈ checkModelHealth probe now models) :
    m'.isHealthy = probeHealthy (probe key) ∧ m'.lastHealthCheck = now := by
  rcases List.mem_map.mp h with ⟨e, he, hfe⟩
  have h1 : e.1 = key := congrArg Prod.fst hfe
  have h2 : ({ e.2 with isHealthy := probeHealthy (probe e.1), lastHealthCheck := now } : Provider) = m' :=
    congrArg Prod.snd hfe
  rw [← h2, h1]
  exact ⟨rfl, rfl⟩

/-- A key whose entries are all unhealthy can only come back healthy through
a tick whose probe for that key succeeded. -/
lemma runHealthTicks_healthy_source (key : String) :
    ∀ (ticks : List ((String → Option Nat) × Nat)) (models : Registry),
      (∀ m, (key, m) ∈ models → m.isHealthy = false) →
      ∀ m', (key, m') ∈ runHealthTicks ticks models → m'.isHealthy = true →
        ∃ pr ∈ ticks, probeHealthy (pr.1 key) = true := by
  intro ticks
  induction ticks with
  | nil =>
    intro models h m' hm' hh
    rw [runHealthTicks] at hm'
    rw [h m' hm'] at hh
    exact Bool.noConfusion hh
  | cons pr rest ih =>
    obtain ⟨p, n⟩ := pr
    intro models h m' hm' hh
    rw [runHealthTicks] at hm'
    cases hp : probeHealthy (p key) with
    | true => exact ⟨(p, n), List.mem_cons_self _ _, hp⟩
    | false =>
      have h' : ∀ m, (key, m) ∈ checkModelHealth p n models → m.isHealthy = false := by
        intro m hm
        rw [(checkModelHealth_isHealthy p n models key m hm).1, hp]
      obtain ⟨pr', hpr', hs⟩ := ih (checkModelHealth p n models) h' m' hm' hh
      exact ⟨pr', List.mem_cons_of_mem _ hpr', hs⟩

/-- C6: a provider whose probe fails on a tick is unhealthy immediately after
that tick, and from then on it reads healthy only after some later tick whose
probe for it returned success (status 200). -/
theorem health_probe_fail_recovery (probe : String → Option Nat) (now : Nat)
    (ticks : List ((String → Option Nat) × Nat)) (models : Registry) (key : String)
    (hfail : probeHealthy (probe key) = false) :
    (∀ m, (key, m) ∈ checkModelHealth probe now models → m.isHealthy = false) ∧
    (∀ m', (key, m') ∈ runHealthTicks ticks (checkModelHealth probe now models) →
      m'.isHealthy = true → ∃ pr ∈ ticks, probeHealthy (pr.1 key) = true) := by
  have h1 : ∀ m, (key, m) ∈ checkModelHealth probe now models → m.isHealthy = false := by
    intro m hm
    rw [(checkModelHealth_isHealthy probe now models key m hm).1, hfail]
  exact ⟨h1, runHealthTicks_healthy_source key ticks _ h1⟩

/-- C6 witness: a timed-out probe of gemma3 at tick time 5, followed by a
successful tick at time 6. -/
theorem health_probe_fail_recovery_witness :
    probeHealthy ((fun _ => (none : Option Nat)) "gemma3") = false ∧
    ((∀ m, ("gemma3", m) ∈
        checkModelHealth (fun _ => none) 5 (initializeModels true true true 0) →
        m.isHealthy = false) ∧
     (∀ m', ("gemma3", m') ∈ runHealthTicks [((fun _ => some 200), 6)]
          (checkModelHealth (fun _ => none) 5 (initializeModels true true true 0)) →
        m'.isHealthy = true →
        ∃ pr ∈ [((fun _ => some 200), 6)], probeHealthy (pr.1 "gemma3") = true)) :=
  ⟨rfl, health_probe_fail_recovery (fun _ => none) 5 [((fun _ => some 200), 6)]
    (initializeModels true true true 0) "gemma3" rfl⟩

/-- A health tick is idempotent: replaying the same tick changes nothing, so
no per-provider component of the source's state accumulates across repeated
failures. -/
lemma checkModelHealth_idem (probe : String → Option Nat) (now : Nat) (models : Registry) :
    checkModelHealth probe now (checkModelHealth probe now models) =
      checkModelHealth probe now models := by
  unfold checkModelHealth
  rw [List.map_map]
  rfl

/-- C8 counterexample: replaying a failed probe leaves the source's registry
state bit-for-bit unchanged, so no field of the per-provider state behaves as
a consecutive-failure counter, while the spec-side health state increments
its counter from 1 to 2 on the second consecutive failure. -/
theorem health_fail_counter_cex :
    checkModelHealth (fun _ => none) 7
        (checkModelHealth (fun _ => none) 7 (initializeModels true true true 0)) =
      checkModelHealth (fun _ => none) 7 (initializeModels true true true 0) ∧
    (specHealthTick false 7 (specHealthTick false 7 ⟨true, 0, 0⟩)).consecutiveFailures = 2 ∧
    (specHealthTick false 7 ⟨true, 0, 0⟩).consecutiveFailures = 1 := by
  exact ⟨checkModelHealth_idem _ _ _, rfl, rfl⟩

/-- C8 (amended): on a failed probe the health monitor sets the provider's
healthy flag to false and records the check timestamp, and nothing else: the
per-provider state keeps no consecutive-failure counter, as witnessed by the
update changing only those two fields and being idempotent. -/
theorem health_fail_no_counter (probe : String → Option Nat) (now : Nat) (models : Registry)
    (key : String) (m : Provider)
    (hm : (key, m) ∈ models) (hfail : probeHealthy (probe key) = false) :
    (key, { m with isHealthy := false, lastHealthCheck := now }) ∈
      checkModelHealth probe now models ∧
    checkModelHealth probe now (checkModelHealth probe now models) =
      checkModelHealth probe now models := by
  constructor
  · refine List.mem_map.mpr ⟨(key, m), hm, ?_⟩
    show (key, { m with isHealthy := probeHealthy (probe key), lastHealthCheck := now }) = _
    rw [hfail]
  · exact checkModelHealth_idem probe now models

/-- C8 witness: gemma3's entry after a timed-out probe at time 7. -/
theorem health_fail_no_counter_witness :
    (("gemma3",
      { name := "Google Gemma 3", maxTokens := some 2048,
        capabilities := ["text-generation", "code-generation", "analysis"],
        isHealthy := true, lastHealthCheck := 0 }) ∈ initializeModels true true true 0) ∧
    probeHealthy ((fun _ => (none : Option Nat)) "gemma3") = false ∧
    (("gemma3",
      { name := "Google Gemma 3", maxTokens := some 2048,
        capabilities := ["text-generation", "code-generation", "analysis"],
        isHealthy := false, lastHealthCheck := 7 }) ∈
      checkModelHealth (fun _ => none) 7 (initializeModels true true true 0)) :=
  ⟨by decide, rfl,
    (health_fail_no_counter (fun _ => none) 7 (initializeModels true true true 0) "gemma3"
      { name := "Google Gemma 3", maxTokens := some 2048,
        capabilities := ["text-generation", "code-generation", "analysis"],
        isHealthy := true, lastHealthCheck := 0 }
      (by decide) rfl).1⟩

end ModelRouter

namespace ModelRouter

lemma map_true_eq_replicate :
    ∀ (ts : List Nat), ts.map (fun _ => true) = List.replicate ts.length true
  | [] => rfl
  | t :: ts => by
    rw [List.map_cons, map_true_eq_replicate ts, List.length_cons, List.replicate_succ]

/-- Requests arriving inside the active window are all admitted while the
counter stays below the ceiling, and each one advances the counter by one. -/
lemma runRequests_in_window (t0 : Nat) :
    ∀ (ts : List Nat) (c : Nat),
      (∀ t ∈ ts, t ≤ t0 + rateLimiterDuration) →
      c + ts.length ≤ rateLimiterPoints →
      runRequests ts (some ⟨t0, c⟩) = (ts.map (fun _ => true), some ⟨t0, c + ts.length⟩) := by
  intro ts
  induction ts with
  | nil =>
    intro c _ _
    simp [runRequests]
  | cons t rest ih =>
    intro c hin hle
    have h1 : ¬ (t0 + rateLimiterDuration < t) :=
      Nat.not_lt.mpr (hin t (List.mem_cons_self _ _))
    have h2 : c < rateLimiterPoints := by
      rw [List.length_cons] at hle
      omega
    have hstep : consume t (some ⟨t0, c⟩) = (true, ⟨t0, c + 1⟩) := by
      rw [consume, if_neg h1, if_pos h2]
    have hrec := ih (c + 1) (fun x hx => hin x (List.mem_cons_of_mem _ hx))
      (by rw [List.length_cons] at hle; omega)
    simp only [runRequests, hstep, hrec, List.map_cons, List.length_cons]
    have harith : c + 1 + rest.length = c + (rest.length + 1) := by omega
    rw [harith]

/-- C7: the fixed-window limiter configured with 100 points per 60 seconds
admits 100 same-window requests from one identity, counts them, rejects the
101st inside the window through the middleware as a structured 429
`Too Many Requests` response, and admits the first request after the window
has expired with the counter reset to 1. -/
theorem rate_limiter_fixed_window (t0 t101 tAfter : Nat) (ts : List Nat)
    (hlen : ts.length = 99)
    (hin : ∀ t ∈ ts, t ≤ t0 + rateLimiterDuration)
    (hin101 : t101 ≤ t0 + rateLimiterDuration)
    (hafter : t0 + rateLimiterDuration < tAfter) :
    (runRequests (t0 :: ts) none).1 = List.replicate 100 true ∧
    (runRequests (t0 :: ts) none).2 = some ⟨t0, 100⟩ ∧
    rateLimitMiddleware t101 (runRequests (t0 :: ts) none).2 =
      MwOutcome.rejected 429 "Too Many Requests" ∧
    consume tAfter (runRequests (t0 :: ts) none).2 = (true, ⟨tAfter, 1⟩) := by
  have hwin := runRequests_in_window t0 ts 1 hin (by rw [hlen]; decide)
  have hrun : runRequests (t0 :: ts) none =
      (true :: ts.map (fun _ => true), some ⟨t0, 1 + ts.length⟩) := by
    simp only [runRequests]
    rw [show consume t0 (none : Option RateRecord) = (true, ⟨t0, 1⟩) from rfl, hwin]
  have hcount : (1 : Nat) + ts.length = 100 := by rw [hlen]
  have hadm : consume t101 (some (⟨t0, 100⟩ : RateRecord)) = (false, ⟨t0, 100⟩) := by
    rw [consume, if_neg (Nat.not_lt.mpr hin101)]
    exact if_neg (Nat.lt_irrefl 100)
  refine ⟨?_, ?_, ?_, ?_⟩
  · rw [hrun]
    show true :: ts.map (fun _ => true) = _
    rw [map_true_eq_replicate, hlen]
    rfl
  · rw [hrun, hcount]
  · rw [hrun, hcount]
    show rateLimitMiddleware t101 (some (⟨t0, 100⟩ : RateRecord)) = _
    simp only [rateLimitMiddleware, hadm]
  · rw [hrun, hcount]
    show consume tAfter (some (⟨t0, 100⟩ : RateRecord)) = _
    rw [consume, if_pos hafter]

/-- C7 witness: 100 requests at time 0, a 101st at time 0, and one at
time 61. -/
theorem rate_limiter_fixed_window_witness :
    (List.replicate 99 0).length = 99 ∧
    (∀ t ∈ List.replicate 99 (0 : Nat), t ≤ 0 + rateLimiterDuration) ∧
    (0 : Nat) ≤ 0 + rateLimiterDuration ∧
    0 + rateLimiterDuration < 61 ∧
    ((runRequests (0 :: List.replicate 99 0) none).1 = List.replicate 100 true ∧
     (runRequests (0 :: List.replicate 99 0) none).2 = some ⟨0, 100⟩ ∧
     rateLimitMiddleware 0 (runRequests (0 :: List.replicate 99 0) none).2 =
       MwOutcome.rejected 429 "Too Many Requests" ∧
     consume 61 (runRequests (0 :: List.replicate 99 0) none).2 = (true, ⟨61, 1⟩)) :=
  ⟨by decide, by decide, by decide, by decide,
    rate_limiter_fixed_window 0 0 61 (List.replicate 99 0)
      (by decide) (by decide) (by decide) (by decide)⟩

/-- C10: a `POST /generate` whose body has no prompt (absent or empty) is
answered with status 400 and the `Prompt is required` error before any
selection or dispatch: the registry is untouched and no provider attempt is
made. -/
theorem generate_missing_prompt_400 (net : Nat → String → Bool) (fuel : Nat)
    (models : Registry) (body : GenerateBody)
    (h : body.prompt = none ∨ body.prompt = some "") :
    handleGenerate net fuel models body =
      (HandlerResponse.badRequest "Prompt is required", models, []) := by
  rcases h with h | h
  · simp [handleGenerate, h]
  · simp [handleGenerate, h]

/-- C10 witness: a body with no prompt field. -/
theorem generate_missing_prompt_400_witness :
    ((⟨none, none, none⟩ : GenerateBody).prompt = none ∨
      (⟨none, none, none⟩ : GenerateBody).prompt = some "") ∧
    handleGenerate (fun _ _ => true) 3 (initializeModels true true true 0)
        ⟨none, none, none⟩ =
      (HandlerResponse.badRequest "Prompt is required", initializeModels true true true 0, []) :=
  ⟨Or.inl rfl,
    generate_missing_prompt_400 (fun _ _ => true) 3 (initializeModels true true true 0)
      ⟨none, none, none⟩ (Or.inl rfl)⟩

end ModelRouter

namespace RoundRobin

/-- C9: a balancer over a non-empty endpoint list cycles: after `k` calls the
endpoints are unchanged and the index is `k` modulo the list length (hence
always within bounds), the `k`-th call (0-based) returns the endpoint at
index `k` modulo the length, and after one full round of `length` calls the
balancer is back in its initial state. -/
theorem round_robin_cycle (eps : List String) (h : eps ≠ []) :
    (∀ k, (lbAfter (mkLoadBalancer eps) k).endpoints = eps ∧
          (lbAfter (mkLoadBalancer eps) k).currentIndex = k % eps.length ∧
          (lbAfter (mkLoadBalancer eps) k).currentIndex < eps.length) ∧
    (∀ k, (getNextEndpoint (lbAfter (mkLoadBalancer eps) k)).1 =
      eps.get? (k % eps.length)) ∧
    lbAfter (mkLoadBalancer eps) eps.length = mkLoadBalancer eps := by
  have hn : 0 < eps.length := List.length_pos.mpr h
  have heps : ∀ k, (lbAfter (mkLoadBalancer eps) k).endpoints = eps := by
    intro k
    induction k with
    | zero => rfl
    | succ k ih =>
      rw [lbAfter]
      exact ih
  have hidx : ∀ k, (lbAfter (mkLoadBalancer eps) k).currentIndex = k % eps.length := by
    intro k
    induction k with
    | zero => exact (Nat.zero_mod _).symm
    | succ k ih =>
      rw [lbAfter]
      show ((lbAfter (mkLoadBalancer eps) k).currentIndex + 1) %
          (lbAfter (mkLoadBalancer eps) k).endpoints.length = (k + 1) % eps.length
      rw [ih, heps k]
      exact Nat.mod_add_mod k eps.length 1
  have hlt : ∀ k, (lbAfter (mkLoadBalancer eps) k).currentIndex < eps.length := by
    intro k
    rw [hidx k]
    exact Nat.mod_lt _ hn
  have hcall : ∀ k, (getNextEndpoint (lbAfter (mkLoadBalancer eps) k)).1 =
      eps.get? (k % eps.length) := by
    intro k
    show (lbAfter (mkLoadBalancer eps) k).endpoints.get?
        (lbAfter (mkLoadBalancer eps) k).currentIndex = _
    rw [heps k, hidx k]
  have hcycle : lbAfter (mkLoadBalancer eps) eps.length = mkLoadBalancer eps := by
    have e2 := hidx eps.length
    rw [Nat.mod_self] at e2
    calc lbAfter (mkLoadBalancer eps) eps.length
        = ⟨(lbAfter (mkLoadBalancer eps) eps.length).endpoints,
           (lbAfter (mkLoadBalancer eps) eps.length).currentIndex⟩ := rfl
      _ = ⟨eps, 0⟩ := by rw [heps eps.length, e2]
  exact ⟨fun k => ⟨heps k, hidx k, hlt k⟩, hcall, hcycle⟩

/-- C9 witness: the single-endpoint balancer the source builds for gemma3
returns to its initial state after one round. -/
theorem round_robin_cycle_witness :
    lbAfter (mkLoadBalancer ["http://gemma3:8000"])
        (["http://gemma3:8000"] : List String).length =
      mkLoadBalancer ["http://gemma3:8000"] :=
  (round_robin_cycle ["http://gemma3:8000"] (by decide)).2.2

end RoundRobin
